import Mathlib

/-!
Shallow embedding of the AutoVolumeManager ducking core
(`src/core/audio_utils.py` and `src/core/volume_manager.py`).

Python dynamic values that flow out of the configuration dictionary are
modelled by `PyVal`; the OS audio subsystem (pycaw sessions) is modelled by
`AudioEnv`, a map from process name to an optional current volume and an
optional peak level (`Option.none` models "no session for that name or the
query raised", which the Python helpers turn into `0.0` / `False`).
Time is modelled by an explicit rational `now` passed to each tick.
Side effects (volume probes, fade invocations, warning prints) are made
observable as returned data.
-/

namespace SLM

/-- Dynamic Python value as read from the configuration dictionary:
a number (`int`/`float`, modelled by `ℚ`), a string, a list, or anything
else (modelled by `other`, which is falsy and fails every `isinstance`
check the code performs). -/
inductive PyVal where
  | num : ℚ → PyVal
  | str : String → PyVal
  | list : List PyVal → PyVal
  | other : PyVal

/-- Python truthiness for the values the code tests with `not x`. -/
def PyVal.truthy : PyVal → Bool
  | .num q => decide (q ≠ 0)
  | .str s => decide (s ≠ "")
  | .list l => !l.isEmpty
  | .other => false

/-- Result of `isinstance(x, list)`. -/
def PyVal.isList : PyVal → Bool
  | .list _ => true
  | _ => false

/-- Result of `isinstance(x, (int, float))`. -/
def PyVal.isNum : PyVal → Bool
  | .num _ => true
  | _ => false

/-- Configuration snapshot returned by `self.get_config()`: each field is
the value stored under the corresponding key, or `Option.none` when the key
is missing (so `config.get(key, default)` is modelled by `Option.getD`). -/
structure Config where
  music_apps : Option PyVal := Option.none
  priority_apps : Option PyVal := Option.none
  volume_ducked : Option PyVal := Option.none
  volume_normal : Option PyVal := Option.none
  fade_out_duration : Option PyVal := Option.none
  fade_in_duration : Option PyVal := Option.none
  peak_threshold : Option PyVal := Option.none
  restore_delay : Option PyVal := Option.none

/-- OS audio subsystem: per process name, the current session volume and
the current meter peak, or `Option.none` when no session matches the name
(or the query fails). -/
structure AudioEnv where
  vol : String → Option ℚ
  peak : String → Option ℚ

/-- Embedding of `get_app_current_volume`: the session volume, `0.0` when
the session is absent or the query fails. -/
def get_app_current_volume (env : AudioEnv) (app_name : String) : ℚ :=
  (env.vol app_name).getD 0

/-- Embedding of `get_app_peak_volume`: the meter peak, `0.0` when the
session is absent or the query fails. -/
def get_app_peak_volume (env : AudioEnv) (app_name : String) : ℚ :=
  (env.peak app_name).getD 0

/-- Number of fade steps used by `fade_app_volume` (`steps = 20`). -/
def steps : ℕ := 20

/-- Clamp to the valid volume range, `max(0.0, min(1.0, x))`. -/
def clamp01 (x : ℚ) : ℚ := max 0 (min 1 x)

/-- Embedding of the loop body of `fade_worker` inside `fade_app_volume`:
`i` is the current loop index, the second argument the number of remaining
iterations (`range(steps + 1)` runs it with `i = 0` and `steps + 1`
remaining). `set_ok i` tells whether the `i`-th `set_app_volume` call of
this fade succeeds. The result is the list of volume values passed to
`set_app_volume`, in order; after the first failing call the loop breaks,
so the remaining steps are skipped. -/
def fade_worker (set_ok : ℕ → Bool) (start_volume end_volume : ℚ) :
    ℕ → ℕ → List ℚ
  | _, 0 => []
  | i, n + 1 =>
    let current_volume :=
      clamp01 (start_volume + ((end_volume - start_volume) / (steps : ℚ)) * (i : ℚ))
    if set_ok i then
      current_volume :: fade_worker set_ok start_volume end_volume (i + 1) n
    else
      [current_volume]

/-- Embedding of one fade task (`fade_app_volume`'s worker): the sequence
of volumes passed to `set_app_volume` for `i = 0, …, steps`. -/
def fade_app_volume (set_ok : ℕ → Bool) (start_volume end_volume : ℚ) : List ℚ :=
  fade_worker set_ok start_volume end_volume 0 (steps + 1)

/-- Embedding of `fade_multiple_apps_volume`: for each name it probes
`get_app_current_volume` and counts the name as a started fade when the
probe result is `≥ 0` (the code's `if current_vol >= 0:  # App exists`
check). The start/end volumes and duration do not influence the count. -/
def fade_multiple_apps_volume (env : AudioEnv) (app_names : List String)
    (start_volume end_volume duration : ℚ) : ℕ :=
  app_names.countP (fun a => decide (get_app_current_volume env a ≥ 0))

/-- Arguments of one `fade_multiple_apps_volume` invocation made by the
manager (the fades it spawns are fire-and-forget threads; their stepping
is modelled separately by `fade_app_volume`). -/
structure FadeReq where
  apps : List String
  start_volume : ℚ
  end_volume : ℚ
  duration : ℚ
deriving DecidableEq

/-- Observable outcome of one `duck_music` / `restore_music` call:
which app names had their current volume queried (by the method itself and
by the `fade_multiple_apps_volume` it invokes), the fade invocation made
(if any), and how many `[WARNING]` config diagnostics were printed. -/
structure MusicFadeResult where
  probes : List String
  fadeCall : Option FadeReq
  warnings : ℕ
deriving DecidableEq

/-- Embedding of the list comprehension
`[app for app in music_apps if app and isinstance(app, str)]`. -/
def validApps (l : List PyVal) : List String :=
  l.filterMap (fun v =>
    match v with
    | .str s => if s = "" then Option.none else some s
    | _ => Option.none)

/-- Embedding of `VolumeManager.duck_music`. Reads `music_apps`
(default `[]`), `volume_ducked` (default `0.2`) and `fade_out_duration`
(default `0.2`) from the config; returns immediately when `music_apps` is
falsy or not a list; replaces an invalid ducked volume by `0.2` and an
invalid fade duration by `0.2`, each with a warning; then, when some valid
app names remain, probes the first one's current volume (falling back to a
start of `1.0` when the probe returns `≤ 0`) and invokes
`fade_multiple_apps_volume` towards the ducked volume. It never touches
`is_ducked` or `last_priority_time`. -/
def duck_music (env : AudioEnv) (cfg : Config) : MusicFadeResult :=
  let music_apps := cfg.music_apps.getD (.list [])
  let volume_ducked := cfg.volume_ducked.getD (.num (1/5))
  let fade_out_duration := cfg.fade_out_duration.getD (.num (1/5))
  if !music_apps.truthy || !music_apps.isList then ⟨[], Option.none, 0⟩
  else
    let vw : ℚ × ℕ :=
      match volume_ducked with
      | .num q => if q < 0 ∨ q > 1 then (1/5, 1) else (q, 0)
      | _ => (1/5, 1)
    let fw : ℚ × ℕ :=
      match fade_out_duration with
      | .num q => if q < 1/10 ∨ q > 2 then (1/5, 1) else (q, 0)
      | _ => (1/5, 1)
    match music_apps with
    | .list l =>
      match validApps l with
      | [] => ⟨[], Option.none, vw.2 + fw.2⟩
      | a0 :: rest =>
        let current_vol := get_app_current_volume env a0
        let start_volume := if current_vol > 0 then current_vol else 1
        ⟨a0 :: (a0 :: rest), some ⟨a0 :: rest, start_volume, vw.1, fw.1⟩, vw.2 + fw.2⟩
    | _ => ⟨[], Option.none, vw.2 + fw.2⟩

/-- Embedding of `VolumeManager.restore_music`. Same shape as `duck_music`
with defaults `volume_normal = 1.0` and `fade_in_duration = 0.4`, except
that the start volume takes the probed value whenever it is `≥ 0` (the
initial `0.2` assumption survives only when the probe is negative, which
`get_app_current_volume` never returns). -/
def restore_music (env : AudioEnv) (cfg : Config) : MusicFadeResult :=
  let music_apps := cfg.music_apps.getD (.list [])
  let volume_normal := cfg.volume_normal.getD (.num 1)
  let fade_in_duration := cfg.fade_in_duration.getD (.num (2/5))
  if !music_apps.truthy || !music_apps.isList then ⟨[], Option.none, 0⟩
  else
    let vw : ℚ × ℕ :=
      match volume_normal with
      | .num q => if q < 0 ∨ q > 1 then (1, 1) else (q, 0)
      | _ => (1, 1)
    let fw : ℚ × ℕ :=
      match fade_in_duration with
      | .num q => if q < 1/10 ∨ q > 2 then (2/5, 1) else (q, 0)
      | _ => (2/5, 1)
    match music_apps with
    | .list l =>
      match validApps l with
      | [] => ⟨[], Option.none, vw.2 + fw.2⟩
      | a0 :: rest =>
        let current_vol := get_app_current_volume env a0
        let start_volume := if current_vol ≥ 0 then current_vol else 1/5
        ⟨a0 :: (a0 :: rest), some ⟨a0 :: rest, start_volume, vw.1, fw.1⟩, vw.2 + fw.2⟩
    | _ => ⟨[], Option.none, vw.2 + fw.2⟩

/-- Embedding of `VolumeManager.check_priority_audio`: reads
`priority_apps` (default `[]`) and `peak_threshold` (default `0.01`);
returns `false` (with no warning) when `priority_apps` is falsy or not a
list; replaces a non-numeric or non-positive threshold by `0.01` with a
warning; then reports whether some non-empty string entry of the list has
`get_app_peak_volume` strictly above the threshold. First component: the
boolean result; second: number of warnings printed. -/
def check_priority_audio (env : AudioEnv) (cfg : Config) : Bool × ℕ :=
  let priority_apps := cfg.priority_apps.getD (.list [])
  let peak_threshold := cfg.peak_threshold.getD (.num (1/100))
  if !priority_apps.truthy || !priority_apps.isList then (false, 0)
  else
    let tw : ℚ × ℕ :=
      match peak_threshold with
      | .num q => if q ≤ 0 then (1/100, 1) else (q, 0)
      | _ => (1/100, 1)
    match priority_apps with
    | .list l =>
      (l.any (fun v =>
        match v with
        | .str s => decide (s ≠ "") && decide (get_app_peak_volume env s > tw.1)
        | _ => false), tw.2)
    | _ => (false, tw.2)

/-- Mutable per-loop state of the manager (`self.is_ducked`,
`self.last_priority_time`). -/
structure MState where
  is_ducked : Bool
  last_priority_time : ℚ
deriving DecidableEq

/-- Observable events of one iteration of `monitor_loop`: the
`duck_music` call made (if any), the `restore_music` call made (if any),
and the warnings printed by `check_priority_audio`. -/
structure TickEv where
  duckCall : Option MusicFadeResult
  restoreCall : Option MusicFadeResult
  checkWarnings : ℕ
deriving DecidableEq

/-- Embedding of one iteration of `VolumeManager.monitor_loop` at time
`now`: fetch `restore_delay` (default `3.0`, used with no validation); if
priority audio is detected, set `last_priority_time = now` and, when not
already ducked, call `duck_music` and set `is_ducked = true`; otherwise,
when ducked and `now - last_priority_time > restore_delay`, call
`restore_music` and set `is_ducked = false`. A non-numeric `restore_delay`
makes the Python comparison raise; the surrounding `except` then leaves
the loop, modelled by `Except.error`. -/
def tick (env : AudioEnv) (cfg : Config) (now : ℚ) (s : MState) :
    Except Unit (MState × TickEv) :=
  let restore_delay := cfg.restore_delay.getD (.num 3)
  let chk := check_priority_audio env cfg
  if chk.1 then
    Except.ok (⟨true, now⟩,
      ⟨if s.is_ducked then Option.none else some (duck_music env cfg),
       Option.none, chk.2⟩)
  else
    if s.is_ducked then
      match restore_delay with
      | .num rd =>
        if now - s.last_priority_time > rd then
          Except.ok (⟨false, s.last_priority_time⟩,
            ⟨Option.none, some (restore_music env cfg), chk.2⟩)
        else
          Except.ok (s, ⟨Option.none, Option.none, chk.2⟩)
      | _ => Except.error ()
    else
      Except.ok (s, ⟨Option.none, Option.none, chk.2⟩)

/-- Primitive observable actions of `VolumeManager.stop`, in program
order. -/
inductive StopEv where
  | setRunning : Bool → StopEv
  | restoreFade : MusicFadeResult → StopEv
deriving DecidableEq

/-- Result of `VolumeManager.stop`: the ordered action trace, the state
after the call, and the final `_running` flag. -/
structure StopResult where
  trace : List StopEv
  final : MState
  running : Bool
deriving DecidableEq

/-- Embedding of `VolumeManager.stop`: first sets `_running = False`;
then, only when `is_ducked` is true, calls `restore_music` and sets
`is_ducked = False`. -/
def stop (env : AudioEnv) (cfg : Config) (s : MState) : StopResult :=
  if s.is_ducked then
    ⟨[.setRunning false, .restoreFade (restore_music env cfg)],
     ⟨false, s.last_priority_time⟩, false⟩
  else
    ⟨[.setRunning false], s, false⟩

/-- Embedding of `VolumeManager.force_duck`: calls `duck_music` only when
already ducked; never modifies the state. -/
def force_duck (env : AudioEnv) (cfg : Config) (s : MState) :
    MState × Option MusicFadeResult :=
  if s.is_ducked then (s, some (duck_music env cfg)) else (s, Option.none)

/-- Embedding of `VolumeManager.force_restore`: calls `restore_music` only
when not ducked; never modifies the state. -/
def force_restore (env : AudioEnv) (cfg : Config) (s : MState) :
    MState × Option MusicFadeResult :=
  if !s.is_ducked then (s, some (restore_music env cfg)) else (s, Option.none)

/-- Snapshot returned by `VolumeManager.get_status`. -/
structure Status where
  is_ducked : Bool
  is_running : Bool
  last_priority_time : ℚ
  time_since_last_priority : ℚ
deriving DecidableEq

/-- Embedding of `VolumeManager.get_status` at time `now` with running
flag `running`. -/
def get_status (now : ℚ) (running : Bool) (s : MState) : Status :=
  ⟨s.is_ducked, running, s.last_priority_time, now - s.last_priority_time⟩

/-- Audio environment with no active session at all (every probe fails,
every peak query returns the absence default). -/
def envQuiet : AudioEnv := ⟨fun _ => Option.none, fun _ => Option.none⟩

/-- Audio environment of the spec's Scenario A: `game.exe` plays at peak
`0.5`, `music.exe` has a session at volume `0.5`. -/
def envGame : AudioEnv :=
  ⟨fun a => if a = "music.exe" then some (1/2) else Option.none,
   fun a => if a = "game.exe" then some (1/2) else Option.none⟩

/-- Configuration of the spec's Scenario A, with all values in range. -/
def cfgGood : Config :=
  { music_apps := some (.list [.str "music.exe"])
    priority_apps := some (.list [.str "game.exe"])
    volume_ducked := some (.num (1/5))
    volume_normal := some (.num 1)
    fade_out_duration := some (.num (1/5))
    fade_in_duration := some (.num (2/5))
    peak_threshold := some (.num (1/100))
    restore_delay := some (.num 1) }

/-- Configuration identical to `cfgGood` except that `restore_delay` is
the out-of-range value `-5`. -/
def cfgBadDelay : Config := { cfgGood with restore_delay := some (.num (-5)) }

/-- Configuration identical to `cfgGood` except that `restore_delay` is
the documented default `3.0`. -/
def cfgDelay3 : Config := { cfgGood with restore_delay := some (.num 3) }

/-- Configuration identical to `cfgGood` except that the `music_apps` key
is missing. -/
def cfgNoMusic : Config := { cfgGood with music_apps := Option.none }

/-- Configuration identical to `cfgGood` except that every numeric policy
value is out of range: ducked volume `1.5`, normal volume `2`, fade-out
duration `5`, fade-in duration `0`, peak threshold `0`. -/
def cfgBadVals : Config :=
  { cfgGood with
    volume_ducked := some (.num (3/2))
    volume_normal := some (.num 2)
    fade_out_duration := some (.num 5)
    fade_in_duration := some (.num 0)
    peak_threshold := some (.num 0) }

/-- Validity test applied by the code to a volume config value:
a number within `[0, 1]`. -/
def PyVal.validVolume : PyVal → Bool
  | .num q => decide (0 ≤ q ∧ q ≤ 1)
  | _ => false

/-- Validity test applied by the code to a fade duration config value:
a number within `[0.1, 2.0]`. -/
def PyVal.validFadeDuration : PyVal → Bool
  | .num q => decide (1/10 ≤ q ∧ q ≤ 2)
  | _ => false

/-- Validity test applied by the code to the peak threshold config value:
a positive number. -/
def PyVal.validThreshold : PyVal → Bool
  | .num q => decide (0 < q)
  | _ => false

/-- Volume passed to `set_app_volume` by step `i` of a fade, as the code
computes it: `start + ((end - start) / steps) * i`, clamped. -/
def fade_call_volume (start_volume end_volume : ℚ) (i : ℕ) : ℚ :=
  clamp01 (start_volume + ((end_volume - start_volume) / (steps : ℚ)) * (i : ℚ))

/-- Effective ducked volume used by `duck_music` after point-of-use
validation: the configured value when it is a number in `[0,1]`, else the
documented default `0.2`. -/
def effective_volume_ducked (cfg : Config) : ℚ :=
  match cfg.volume_ducked.getD (.num (1/5)) with
  | .num q => if q < 0 ∨ q > 1 then 1/5 else q
  | _ => 1/5

/-- Effective fade-out duration used by `duck_music` after point-of-use
validation (default `0.2`). -/
def effective_fade_out (cfg : Config) : ℚ :=
  match cfg.fade_out_duration.getD (.num (1/5)) with
  | .num q => if q < 1/10 ∨ q > 2 then 1/5 else q
  | _ => 1/5

/-- Number of config warnings `duck_music` prints on the path where
`music_apps` is a truthy list. -/
def duck_warnings (cfg : Config) : ℕ :=
  (match cfg.volume_ducked.getD (.num (1/5)) with
   | .num q => if q < 0 ∨ q > 1 then 1 else 0
   | _ => 1) +
  (match cfg.fade_out_duration.getD (.num (1/5)) with
   | .num q => if q < 1/10 ∨ q > 2 then 1 else 0
   | _ => 1)

/-- Effective normal volume used by `restore_music` after point-of-use
validation (default `1.0`). -/
def effective_volume_normal (cfg : Config) : ℚ :=
  match cfg.volume_normal.getD (.num 1) with
  | .num q => if q < 0 ∨ q > 1 then 1 else q
  | _ => 1

/-- Effective fade-in duration used by `restore_music` after point-of-use
validation (default `0.4`). -/
def effective_fade_in (cfg : Config) : ℚ :=
  match cfg.fade_in_duration.getD (.num (2/5)) with
  | .num q => if q < 1/10 ∨ q > 2 then 2/5 else q
  | _ => 2/5

/-- Number of config warnings `restore_music` prints on the path where
`music_apps` is a truthy list. -/
def restore_warnings (cfg : Config) : ℕ :=
  (match cfg.volume_normal.getD (.num 1) with
   | .num q => if q < 0 ∨ q > 1 then 1 else 0
   | _ => 1) +
  (match cfg.fade_in_duration.getD (.num (2/5)) with
   | .num q => if q < 1/10 ∨ q > 2 then 1 else 0
   | _ => 1)

/-- Effective peak threshold used by `check_priority_audio` after
point-of-use validation (default `0.01`). -/
def effective_peak_threshold (cfg : Config) : ℚ :=
  match cfg.peak_threshold.getD (.num (1/100)) with
  | .num q => if q ≤ 0 then 1/100 else q
  | _ => 1/100

/-- Number of config warnings `check_priority_audio` prints on the path
where `priority_apps` is a truthy list. -/
def threshold_warnings (cfg : Config) : ℕ :=
  match cfg.peak_threshold.getD (.num (1/100)) with
  | .num q => if q ≤ 0 then 1 else 0
  | _ => 1

lemma validApps_ne_nil {l : List PyVal} {a : String} {r : List String}
    (h : validApps l = a :: r) : l.isEmpty = false := by
  cases l with
  | nil => simp [validApps] at h
  | cons x xs => rfl

lemma list_guard_false {l : List PyVal} (hne : l.isEmpty = false) :
    (!(PyVal.list l).truthy || !(PyVal.list l).isList) = false := by
  simp [PyVal.truthy, PyVal.isList, hne]

lemma ite_pair_fst {c : Prop} [Decidable c] {x y : ℚ} {m n : ℕ} :
    (if c then (x, m) else (y, n)).1 = if c then x else y := by
  split <;> rfl

lemma ite_pair_snd {c : Prop} [Decidable c] {x y : ℚ} {m n : ℕ} :
    (if c then (x, m) else (y, n)).2 = if c then m else n := by
  split <;> rfl

lemma duck_music_unfolded (env : AudioEnv) (cfg : Config) (l : List PyVal)
    (a : String) (r : List String)
    (hm : cfg.music_apps = some (.list l)) (hva : validApps l = a :: r) :
    duck_music env cfg =
      ⟨a :: (a :: r),
       some ⟨a :: r,
         (if get_app_current_volume env a > 0 then get_app_current_volume env a else 1),
         effective_volume_ducked cfg, effective_fade_out cfg⟩,
       duck_warnings cfg⟩ := by
  unfold duck_music effective_volume_ducked effective_fade_out duck_warnings
  rw [hm]
  simp only [Option.getD_some]
  rw [list_guard_false (validApps_ne_nil hva)]
  simp only [Bool.false_eq_true, if_false, hva]
  cases hv : cfg.volume_ducked.getD (.num (1/5)) <;>
    cases hf : cfg.fade_out_duration.getD (.num (1/5)) <;>
      simp [ite_pair_fst, ite_pair_snd, -Prod.mk_one_one, -Prod.mk_zero_zero]

lemma restore_music_unfolded (env : AudioEnv) (cfg : Config) (l : List PyVal)
    (a : String) (r : List String)
    (hm : cfg.music_apps = some (.list l)) (hva : validApps l = a :: r) :
    restore_music env cfg =
      ⟨a :: (a :: r),
       some ⟨a :: r,
         (if get_app_current_volume env a ≥ 0 then get_app_current_volume env a else 1/5),
         effective_volume_normal cfg, effective_fade_in cfg⟩,
       restore_warnings cfg⟩ := by
  unfold restore_music effective_volume_normal effective_fade_in restore_warnings
  rw [hm]
  simp only [Option.getD_some]
  rw [list_guard_false (validApps_ne_nil hva)]
  simp only [Bool.false_eq_true, if_false, hva]
  cases hv : cfg.volume_normal.getD (.num 1) <;>
    cases hf : cfg.fade_in_duration.getD (.num (2/5)) <;>
      simp [ite_pair_fst, ite_pair_snd, -Prod.mk_one_one, -Prod.mk_zero_zero]

lemma check_priority_unfolded (env : AudioEnv) (cfg : Config) (l : List PyVal)
    (hl : cfg.priority_apps = some (.list l)) (hne : l.isEmpty = false) :
    check_priority_audio env cfg =
      (l.any (fun v =>
        match v with
        | PyVal.str s =>
          decide (s ≠ "") &&
            decide (get_app_peak_volume env s > effective_peak_threshold cfg)
        | _ => false),
       threshold_warnings cfg) := by
  unfold check_priority_audio effective_peak_threshold threshold_warnings
  rw [hl]
  simp only [Option.getD_some]
  rw [list_guard_false hne]
  simp only [Bool.false_eq_true, if_false]
  cases ht : cfg.peak_threshold.getD (.num (1/100)) <;>
    simp [ite_pair_fst, ite_pair_snd, -Prod.mk_one_one, -Prod.mk_zero_zero]

lemma any_priority_matches (env : AudioEnv) (t : ℚ) (l : List PyVal) :
    (l.any (fun v =>
      match v with
      | PyVal.str s => decide (s ≠ "") && decide (get_app_peak_volume env s > t)
      | _ => false)) = true ↔
    ∃ s, PyVal.str s ∈ l ∧ s ≠ "" ∧ get_app_peak_volume env s > t := by
  rw [List.any_eq_true]
  constructor
  · rintro ⟨v, hv, hp⟩
    cases v with
    | str s =>
      rw [Bool.and_eq_true, decide_eq_true_iff, decide_eq_true_iff] at hp
      exact ⟨s, hv, hp.1, hp.2⟩
    | num q => simp at hp
    | list l' => simp at hp
    | other => simp at hp
  · rintro ⟨s, hs, hne, hgt⟩
    exact ⟨.str s, hs, by simp [hne, hgt]⟩

lemma out_of_range {x lo hi : ℚ} (h : ¬(lo ≤ x ∧ x ≤ hi)) : x < lo ∨ x > hi := by
  by_contra hno
  push_neg at hno
  exact h hno

lemma effective_volume_ducked_invalid {cfg : Config} {v : PyVal}
    (hv : cfg.volume_ducked = some v) (hinv : v.validVolume = false) :
    effective_volume_ducked cfg = 1/5 := by
  unfold effective_volume_ducked
  rw [hv]
  simp only [Option.getD_some]
  cases v with
  | num q =>
    simp only [PyVal.validVolume, decide_eq_false_iff_not] at hinv
    simp [out_of_range hinv]
  | str s => rfl
  | list l => rfl
  | other => rfl

lemma effective_volume_normal_invalid {cfg : Config} {v : PyVal}
    (hv : cfg.volume_normal = some v) (hinv : v.validVolume = false) :
    effective_volume_normal cfg = 1 := by
  unfold effective_volume_normal
  rw [hv]
  simp only [Option.getD_some]
  cases v with
  | num q =>
    simp only [PyVal.validVolume, decide_eq_false_iff_not] at hinv
    simp [out_of_range hinv]
  | str s => rfl
  | list l => rfl
  | other => rfl

lemma effective_fade_out_invalid {cfg : Config} {v : PyVal}
    (hv : cfg.fade_out_duration = some v) (hinv : v.validFadeDuration = false) :
    effective_fade_out cfg = 1/5 := by
  unfold effective_fade_out
  rw [hv]
  simp only [Option.getD_some]
  cases v with
  | num q =>
    simp only [PyVal.validFadeDuration, decide_eq_false_iff_not] at hinv
    show (if q < 1/10 ∨ q > 2 then (1/5 : ℚ) else q) = 1/5
    rw [if_pos (out_of_range hinv)]
  | str s => rfl
  | list l => rfl
  | other => rfl

lemma effective_fade_in_invalid {cfg : Config} {v : PyVal}
    (hv : cfg.fade_in_duration = some v) (hinv : v.validFadeDuration = false) :
    effective_fade_in cfg = 2/5 := by
  unfold effective_fade_in
  rw [hv]
  simp only [Option.getD_some]
  cases v with
  | num q =>
    simp only [PyVal.validFadeDuration, decide_eq_false_iff_not] at hinv
    show (if q < 1/10 ∨ q > 2 then (2/5 : ℚ) else q) = 2/5
    rw [if_pos (out_of_range hinv)]
  | str s => rfl
  | list l => rfl
  | other => rfl

lemma effective_peak_threshold_invalid {cfg : Config} {v : PyVal}
    (hv : cfg.peak_threshold = some v) (hinv : v.validThreshold = false) :
    effective_peak_threshold cfg = 1/100 := by
  unfold effective_peak_threshold
  rw [hv]
  simp only [Option.getD_some]
  cases v with
  | num q =>
    simp only [PyVal.validThreshold, decide_eq_false_iff_not] at hinv
    simp [not_lt.mp hinv]
  | str s => rfl
  | list l => rfl
  | other => rfl

lemma threshold_warnings_invalid {cfg : Config} {v : PyVal}
    (hv : cfg.peak_threshold = some v) (hinv : v.validThreshold = false) :
    threshold_warnings cfg = 1 := by
  unfold threshold_warnings
  rw [hv]
  simp only [Option.getD_some]
  cases v with
  | num q =>
    simp only [PyVal.validThreshold, decide_eq_false_iff_not] at hinv
    simp [not_lt.mp hinv]
  | str s => rfl
  | list l => rfl
  | other => rfl

lemma duck_warnings_volume_invalid {cfg : Config} {v : PyVal}
    (hv : cfg.volume_ducked = some v) (hinv : v.validVolume = false) :
    1 ≤ duck_warnings cfg := by
  unfold duck_warnings
  rw [hv]
  simp only [Option.getD_some]
  cases v with
  | num q =>
    simp only [PyVal.validVolume, decide_eq_false_iff_not] at hinv
    simp [out_of_range hinv]
  | str s => exact Nat.le_add_right 1 _
  | list l => exact Nat.le_add_right 1 _
  | other => exact Nat.le_add_right 1 _

lemma duck_warnings_fade_invalid {cfg : Config} {v : PyVal}
    (hv : cfg.fade_out_duration = some v) (hinv : v.validFadeDuration = false) :
    1 ≤ duck_warnings cfg := by
  unfold duck_warnings
  rw [hv]
  simp only [Option.getD_some]
  cases v with
  | num q =>
    simp only [PyVal.validFadeDuration, decide_eq_false_iff_not] at hinv
    have hb : (if q < 1/10 ∨ q > 2 then 1 else 0) = 1 :=
      if_pos (out_of_range hinv)
    show 1 ≤ _ + (if q < 1/10 ∨ q > 2 then 1 else 0)
    rw [hb]
    exact Nat.le_add_left 1 _
  | str s => exact Nat.le_add_left 1 _
  | list l => exact Nat.le_add_left 1 _
  | other => exact Nat.le_add_left 1 _

lemma restore_warnings_volume_invalid {cfg : Config} {v : PyVal}
    (hv : cfg.volume_normal = some v) (hinv : v.validVolume = false) :
    1 ≤ restore_warnings cfg := by
  unfold restore_warnings
  rw [hv]
  simp only [Option.getD_some]
  cases v with
  | num q =>
    simp only [PyVal.validVolume, decide_eq_false_iff_not] at hinv
    simp [out_of_range hinv]
  | str s => exact Nat.le_add_right 1 _
  | list l => exact Nat.le_add_right 1 _
  | other => exact Nat.le_add_right 1 _

lemma restore_warnings_fade_invalid {cfg : Config} {v : PyVal}
    (hv : cfg.fade_in_duration = some v) (hinv : v.validFadeDuration = false) :
    1 ≤ restore_warnings cfg := by
  unfold restore_warnings
  rw [hv]
  simp only [Option.getD_some]
  cases v with
  | num q =>
    simp only [PyVal.validFadeDuration, decide_eq_false_iff_not] at hinv
    have hb : (if q < 1/10 ∨ q > 2 then 1 else 0) = 1 :=
      if_pos (out_of_range hinv)
    show 1 ≤ _ + (if q < 1/10 ∨ q > 2 then 1 else 0)
    rw [hb]
    exact Nat.le_add_left 1 _
  | str s => exact Nat.le_add_left 1 _
  | list l => exact Nat.le_add_left 1 _
  | other => exact Nat.le_add_left 1 _

/-- C1: on any tick where priority audio is detected, the loop stores the
current time in `last_priority_time`, ends the tick with `is_ducked = true`,
and invokes the duck transition exactly when it was not already ducked;
the environment (hence the outcome of any probe, fade or volume set) is
arbitrary, so the `is_ducked` transition does not depend on fade success. -/
theorem priority_tick_ducks (env : AudioEnv) (cfg : Config) (now : ℚ) (s : MState)
    (h : (check_priority_audio env cfg).1 = true) :
    tick env cfg now s =
      Except.ok (⟨true, now⟩,
        ⟨if s.is_ducked then Option.none else some (duck_music env cfg),
         Option.none, (check_priority_audio env cfg).2⟩) := by
  unfold tick
  simp [h]

/-- Witness for `priority_tick_ducks` at Scenario A: game audio at peak
`0.5` over threshold `0.01`, starting unducked at time `5`. -/
theorem priority_tick_ducks_witness :
    tick envGame cfgGood 5 ⟨false, 0⟩ =
      Except.ok (⟨true, 5⟩,
        ⟨some (duck_music envGame cfgGood), Option.none, 0⟩) := by
  with_unfolding_all
    exact priority_tick_ducks envGame cfgGood 5 ⟨false, 0⟩ (by with_unfolding_all decide)

/-- C3 (code divergence): with no audio session for `"music.exe"`, the
existence probe still reports `0.0` and the `current_vol >= 0` guard in
`fade_multiple_apps_volume` accepts it, so the call counts one started
fade instead of the zero the spec requires. -/
theorem fade_multiple_counts_absent_app :
    get_app_current_volume envQuiet "music.exe" = 0 ∧
    fade_multiple_apps_volume envQuiet ["music.exe"] 1 (1/5) (1/5) = 1 :=
  ⟨rfl, rfl⟩

/-- C4 (counterexample): calling `stop` while not ducked performs no
restore fade at all (the trace holds only the `_running = False` write),
and calling it while ducked sets `_running = False` strictly before the
restore fade is triggered — both contradict the claim that a restore fade
is forced regardless of ducked state and before `is_running` turns false. -/
theorem stop_trace_concrete :
    (stop envQuiet cfgGood ⟨false, 0⟩).trace = [StopEv.setRunning false] ∧
    (stop envQuiet cfgGood ⟨true, 0⟩).trace =
      [StopEv.setRunning false,
       StopEv.restoreFade (restore_music envQuiet cfgGood)] :=
  ⟨rfl, rfl⟩

/-- C4 (amended): `stop` always ends with `_running = false` and
`is_ducked = false`; its trace first records the `_running = False` write
and then a restore fade exactly when the manager was ducked; a second
`stop` on the resulting state (as happens when the loop's `finally` block
runs) triggers no further fade, so the restore fires at most once and
music is never left ducked. -/
theorem stop_restores_only_when_ducked (env : AudioEnv) (cfg : Config) (s : MState) :
    (stop env cfg s).running = false ∧
    (stop env cfg s).final.is_ducked = false ∧
    (stop env cfg s).trace =
      StopEv.setRunning false ::
        (if s.is_ducked then [StopEv.restoreFade (restore_music env cfg)] else []) ∧
    (stop env cfg (stop env cfg s).final).trace = [StopEv.setRunning false] := by
  cases hd : s.is_ducked <;> simp [stop, hd]

/-- C7: `force_duck` and `force_restore` never modify the manager state
(`is_ducked` and `last_priority_time` are unchanged), `force_duck` invokes
the duck transition exactly when already ducked, and `force_restore`
invokes the restore transition exactly when not ducked; in the opposite
state neither performs any probe or volume action. -/
theorem force_ops_guarded (env : AudioEnv) (cfg : Config) (s : MState) :
    (force_duck env cfg s).1 = s ∧ (force_restore env cfg s).1 = s ∧
    (force_duck env cfg s).2 =
      (if s.is_ducked then some (duck_music env cfg) else Option.none) ∧
    (force_restore env cfg s).2 =
      (if s.is_ducked then Option.none else some (restore_music env cfg)) := by
  cases hd : s.is_ducked <;> simp [force_duck, force_restore, hd]

/-- C9 (code divergence): with the `"music.exe"` session absent, the duck
transition does fall back to the assumed start volume `1.0`, but the
restore transition starts its fade from the probed value `0.0` — the
assumed `0.2` start is dead because `get_app_current_volume` never
returns a negative value, so the `current_vol >= 0` acceptance test
always passes. -/
theorem restore_start_volume_on_absent_app :
    (duck_music envQuiet cfgGood).fadeCall =
      some ⟨["music.exe"], 1, 1/5, 1/5⟩ ∧
    (restore_music envQuiet cfgGood).fadeCall =
      some ⟨["music.exe"], 0, 1, 2/5⟩ :=
  ⟨by with_unfolding_all decide, by with_unfolding_all decide⟩

/-- C10: when the configured music-app list is missing, empty, falsy or
not a list, `duck_music` and `restore_music` return before probing or
setting any volume, invoking any fade, or printing any warning (and, being
functions of the environment and config only, they leave `is_ducked` and
`last_priority_time` untouched). -/
theorem music_apps_invalid_noop (env : AudioEnv) (cfg : Config)
    (h : (cfg.music_apps.getD (.list [])).truthy = false ∨
         (cfg.music_apps.getD (.list [])).isList = false) :
    duck_music env cfg = ⟨[], Option.none, 0⟩ ∧
    restore_music env cfg = ⟨[], Option.none, 0⟩ := by
  unfold duck_music restore_music
  rcases h with h | h <;> simp [h]

/-- Witness for `music_apps_invalid_noop`: the `music_apps` key missing
(so `config.get` yields the falsy default `[]`). -/
theorem music_apps_invalid_noop_witness :
    duck_music envGame cfgNoMusic = ⟨[], Option.none, 0⟩ ∧
    restore_music envGame cfgNoMusic = ⟨[], Option.none, 0⟩ :=
  music_apps_invalid_noop envGame cfgNoMusic (Or.inl rfl)

/-- C8: with a truthy priority list and a valid (positive numeric)
threshold, the priority check reports activity exactly when some non-empty
string entry of the list has a peak strictly greater than the threshold —
so empty and non-string entries are skipped, and a peak exactly equal to
the threshold never triggers. -/
theorem priority_check_strict (env : AudioEnv) (cfg : Config) (l : List PyVal) (t : ℚ)
    (hl : cfg.priority_apps = some (.list l)) (hne : l.isEmpty = false)
    (ht : cfg.peak_threshold = some (.num t)) (htpos : 0 < t) :
    ((check_priority_audio env cfg).1 = true ↔
      ∃ s, PyVal.str s ∈ l ∧ s ≠ "" ∧ get_app_peak_volume env s > t) := by
  have heff : effective_peak_threshold cfg = t := by
    unfold effective_peak_threshold
    rw [ht]
    simp [not_le.mpr htpos]
  rw [check_priority_unfolded env cfg l hl hne]
  simp only [heff]
  exact any_priority_matches env t l

/-- Witness for `priority_check_strict` at Scenario A. -/
theorem priority_check_strict_witness :
    ((check_priority_audio envGame cfgGood).1 = true ↔
      ∃ s, PyVal.str s ∈ [PyVal.str "game.exe"] ∧ s ≠ "" ∧
        get_app_peak_volume envGame s > 1/100) :=
  priority_check_strict envGame cfgGood [PyVal.str "game.exe"] (1/100)
    rfl rfl rfl (by norm_num)

/-- C2: while ducked and with no priority activity on the tick, the loop
performs the restore transition and clears `is_ducked` exactly when
`now - last_priority_time` strictly exceeds the restore delay (first two
conjuncts); any tick with priority activity resets `last_priority_time`
to the current time (third conjunct), so the quiet period is measured from
the last activity, not from loop start. -/
theorem restore_debounce :
    (∀ (env : AudioEnv) (cfg : Config) (now : ℚ) (s : MState) (rd : ℚ),
        (check_priority_audio env cfg).1 = false →
        cfg.restore_delay = some (.num rd) → s.is_ducked = true →
        (tick env cfg now s =
            Except.ok (⟨false, s.last_priority_time⟩,
              ⟨Option.none, some (restore_music env cfg),
               (check_priority_audio env cfg).2⟩) ↔
          now - s.last_priority_time > rd)) ∧
    (∀ (env : AudioEnv) (cfg : Config) (now : ℚ) (s : MState) (rd : ℚ),
        (check_priority_audio env cfg).1 = false →
        cfg.restore_delay = some (.num rd) → s.is_ducked = true →
        ¬(now - s.last_priority_time > rd) →
        tick env cfg now s =
          Except.ok (s, ⟨Option.none, Option.none,
            (check_priority_audio env cfg).2⟩)) ∧
    (∀ (env : AudioEnv) (cfg : Config) (now : ℚ) (s : MState),
        (check_priority_audio env cfg).1 = true →
        ∃ ev, tick env cfg now s = Except.ok (⟨true, now⟩, ev)) := by
  refine ⟨?_, ?_, ?_⟩
  · intro env cfg now s rd hchk hrd hduck
    obtain ⟨d, lt⟩ := s
    simp only [MState.is_ducked] at hduck
    subst hduck
    unfold tick
    rw [hrd]
    by_cases hgt : now - lt > rd
    · simp [hchk, hgt]
    · simp [hchk, hgt]
  · intro env cfg now s rd hchk hrd hduck hng
    obtain ⟨d, lt⟩ := s
    simp only [MState.is_ducked] at hduck
    subst hduck
    unfold tick
    rw [hrd]
    simp [hchk, hng]
  · intro env cfg now s hchk
    exact ⟨⟨if s.is_ducked then Option.none else some (duck_music env cfg),
            Option.none, (check_priority_audio env cfg).2⟩,
      by unfold tick; simp [hchk]⟩

/-- Witness for `restore_debounce` (first conjunct) on Scenario B timing:
ducked since time `0`, quiet environment, delay `1`, checked at time `2`. -/
theorem restore_debounce_witness :
    (tick envQuiet cfgGood 2 ⟨true, 0⟩ =
        Except.ok (⟨false, 0⟩,
          ⟨Option.none, some (restore_music envQuiet cfgGood), 0⟩) ↔
      (2 : ℚ) - 0 > 1) := by
  with_unfolding_all
    exact restore_debounce.1 envQuiet cfgGood 2 ⟨true, 0⟩ 1
      (by with_unfolding_all decide) rfl rfl

/-- C6 (counterexample): the restore delay is not validated at its point
of use. With `restore_delay = -5` and zero elapsed quiet time, the tick
immediately performs the restore (because `0 > -5`) and prints no
diagnostic at all, whereas with the documented default `3.0` the same tick
would do nothing — so the out-of-range delay is not replaced by the
default. -/
theorem restore_delay_used_unvalidated :
    tick envQuiet cfgBadDelay 100 ⟨true, 100⟩ =
      Except.ok (⟨false, 100⟩,
        ⟨Option.none, some (restore_music envQuiet cfgBadDelay), 0⟩) ∧
    (restore_music envQuiet cfgBadDelay).warnings = 0 ∧
    tick envQuiet cfgDelay3 100 ⟨true, 100⟩ =
      Except.ok (⟨true, 100⟩, ⟨Option.none, Option.none, 0⟩) := by
  refine ⟨?_, ?_, ?_⟩ <;> with_unfolding_all rfl

/-- C6 (amended): volume values outside `[0,1]`, fade durations outside
`[0.1, 2.0]` and non-positive thresholds are each replaced by their
documented default at the point of use with at least one warning printed,
and the engine keeps running; the restore delay, by contrast, is consumed
exactly as fetched from the config (any numeric value, however far out of
the documented `[0.1, 60]` range, drives the comparison directly and
without any diagnostic). -/
theorem config_defaults_at_point_of_use :
    (∀ (env : AudioEnv) (cfg : Config) (l : List PyVal) (a : String)
        (r : List String) (v : PyVal),
        cfg.music_apps = some (.list l) → validApps l = a :: r →
        cfg.volume_ducked = some v → v.validVolume = false →
        1 ≤ (duck_music env cfg).warnings ∧
        ∃ req, (duck_music env cfg).fadeCall = some req ∧
          req.end_volume = 1/5) ∧
    (∀ (env : AudioEnv) (cfg : Config) (l : List PyVal) (a : String)
        (r : List String) (v : PyVal),
        cfg.music_apps = some (.list l) → validApps l = a :: r →
        cfg.volume_normal = some v → v.validVolume = false →
        1 ≤ (restore_music env cfg).warnings ∧
        ∃ req, (restore_music env cfg).fadeCall = some req ∧
          req.end_volume = 1) ∧
    (∀ (env : AudioEnv) (cfg : Config) (l : List PyVal) (a : String)
        (r : List String) (v : PyVal),
        cfg.music_apps = some (.list l) → validApps l = a :: r →
        cfg.fade_out_duration = some v → v.validFadeDuration = false →
        1 ≤ (duck_music env cfg).warnings ∧
        ∃ req, (duck_music env cfg).fadeCall = some req ∧
          req.duration = 1/5) ∧
    (∀ (env : AudioEnv) (cfg : Config) (l : List PyVal) (a : String)
        (r : List String) (v : PyVal),
        cfg.music_apps = some (.list l) → validApps l = a :: r →
        cfg.fade_in_duration = some v → v.validFadeDuration = false →
        1 ≤ (restore_music env cfg).warnings ∧
        ∃ req, (restore_music env cfg).fadeCall = some req ∧
          req.duration = 2/5) ∧
    (∀ (env : AudioEnv) (cfg : Config) (l : List PyVal) (v : PyVal),
        cfg.priority_apps = some (.list l) → l.isEmpty = false →
        cfg.peak_threshold = some v → v.validThreshold = false →
        (check_priority_audio env cfg).2 = 1 ∧
        ((check_priority_audio env cfg).1 = true ↔
          ∃ s, PyVal.str s ∈ l ∧ s ≠ "" ∧
            get_app_peak_volume env s > 1/100)) ∧
    (∀ (env : AudioEnv) (cfg : Config) (now : ℚ) (s : MState) (rd : ℚ),
        (check_priority_audio env cfg).1 = false →
        cfg.restore_delay = some (.num rd) → s.is_ducked = true →
        now - s.last_priority_time > rd →
        tick env cfg now s =
          Except.ok (⟨false, s.last_priority_time⟩,
            ⟨Option.none, some (restore_music env cfg),
             (check_priority_audio env cfg).2⟩)) := by
  refine ⟨?_, ?_, ?_, ?_, ?_, ?_⟩
  · intro env cfg l a r v hm hva hv hinv
    rw [duck_music_unfolded env cfg l a r hm hva]
    exact ⟨duck_warnings_volume_invalid hv hinv,
      ⟨_, rfl, effective_volume_ducked_invalid hv hinv⟩⟩
  · intro env cfg l a r v hm hva hv hinv
    rw [restore_music_unfolded env cfg l a r hm hva]
    exact ⟨restore_warnings_volume_invalid hv hinv,
      ⟨_, rfl, effective_volume_normal_invalid hv hinv⟩⟩
  · intro env cfg l a r v hm hva hv hinv
    rw [duck_music_unfolded env cfg l a r hm hva]
    exact ⟨duck_warnings_fade_invalid hv hinv,
      ⟨_, rfl, effective_fade_out_invalid hv hinv⟩⟩
  · intro env cfg l a r v hm hva hv hinv
    rw [restore_music_unfolded env cfg l a r hm hva]
    exact ⟨restore_warnings_fade_invalid hv hinv,
      ⟨_, rfl, effective_fade_in_invalid hv hinv⟩⟩
  · intro env cfg l v hl hne hv hinv
    rw [check_priority_unfolded env cfg l hl hne]
    refine ⟨threshold_warnings_invalid hv hinv, ?_⟩
    simp only [effective_peak_threshold_invalid hv hinv]
    exact any_priority_matches env (1/100) l
  · intro env cfg now s rd hchk hrd hduck hgt
    obtain ⟨d, lt⟩ := s
    simp only [MState.is_ducked] at hduck
    subst hduck
    unfold tick
    rw [hrd]
    simp [hchk, hgt]

/-- Witness for `config_defaults_at_point_of_use`: a config whose ducked
volume is `1.5`, normal volume `2`, fade durations `5` and `0`, threshold
`0`, plus the `-5` restore delay config of the counterexample. -/
theorem config_defaults_witness :
    (1 ≤ (duck_music envQuiet cfgBadVals).warnings ∧
      ∃ req, (duck_music envQuiet cfgBadVals).fadeCall = some req ∧
        req.end_volume = 1/5) ∧
    (1 ≤ (restore_music envQuiet cfgBadVals).warnings ∧
      ∃ req, (restore_music envQuiet cfgBadVals).fadeCall = some req ∧
        req.end_volume = 1) ∧
    (1 ≤ (duck_music envQuiet cfgBadVals).warnings ∧
      ∃ req, (duck_music envQuiet cfgBadVals).fadeCall = some req ∧
        req.duration = 1/5) ∧
    (1 ≤ (restore_music envQuiet cfgBadVals).warnings ∧
      ∃ req, (restore_music envQuiet cfgBadVals).fadeCall = some req ∧
        req.duration = 2/5) ∧
    ((check_priority_audio envQuiet cfgBadVals).2 = 1 ∧
      ((check_priority_audio envQuiet cfgBadVals).1 = true ↔
        ∃ s, PyVal.str s ∈ [PyVal.str "game.exe"] ∧ s ≠ "" ∧
          get_app_peak_volume envQuiet s > 1/100)) ∧
    tick envQuiet cfgBadDelay 100 ⟨true, 100⟩ =
      Except.ok (⟨false, 100⟩,
        ⟨Option.none, some (restore_music envQuiet cfgBadDelay),
         (check_priority_audio envQuiet cfgBadDelay).2⟩) :=
  ⟨config_defaults_at_point_of_use.1 envQuiet cfgBadVals _ "music.exe" [] _
      rfl rfl rfl (by norm_num [PyVal.validVolume]),
   config_defaults_at_point_of_use.2.1 envQuiet cfgBadVals _ "music.exe" [] _
      rfl rfl rfl (by norm_num [PyVal.validVolume]),
   config_defaults_at_point_of_use.2.2.1 envQuiet cfgBadVals _ "music.exe" [] _
      rfl rfl rfl (by norm_num [PyVal.validFadeDuration]),
   config_defaults_at_point_of_use.2.2.2.1 envQuiet cfgBadVals _ "music.exe" [] _
      rfl rfl rfl (by norm_num [PyVal.validFadeDuration]),
   config_defaults_at_point_of_use.2.2.2.2.1 envQuiet cfgBadVals _ _
      rfl rfl rfl (by norm_num [PyVal.validThreshold]),
   config_defaults_at_point_of_use.2.2.2.2.2 envQuiet cfgBadDelay 100 ⟨true, 100⟩ (-5)
      (by with_unfolding_all decide) rfl rfl (by norm_num)⟩

lemma fade_worker_all_ok (set_ok : ℕ → Bool) (sv ev : ℚ) :
    ∀ (n i : ℕ), (∀ k, k < n → set_ok (i + k) = true) →
      fade_worker set_ok sv ev i n =
        (List.range n).map (fun k => fade_call_volume sv ev (i + k)) := by
  intro n
  induction n with
  | zero => intro i _; rfl
  | succ n ih =>
    intro i h
    have h0 : set_ok i = true := by simpa using h 0 n.succ_pos
    have htail : ∀ k, k < n → set_ok (i + 1 + k) = true := by
      intro k hk
      have hs := h (k + 1) (Nat.succ_lt_succ hk)
      have hadd : i + (k + 1) = i + 1 + k := by omega
      rwa [hadd] at hs
    simp only [fade_worker, h0, if_true]
    rw [ih (i + 1) htail]
    conv_rhs => rw [List.range_succ_eq_map]
    rw [List.map_cons, List.map_map]
    congr 1
    apply List.map_congr_left
    intro k _
    simp only [Function.comp_apply]
    congr 1
    omega

lemma fade_worker_first_fail (set_ok : ℕ → Bool) (sv ev : ℚ) :
    ∀ (n i m : ℕ), m < n → set_ok (i + m) = false →
      (∀ k, k < m → set_ok (i + k) = true) →
      fade_worker set_ok sv ev i n =
        (List.range (m + 1)).map (fun k => fade_call_volume sv ev (i + k)) := by
  intro n
  induction n with
  | zero => intro i m hm _ _; exact absurd hm (Nat.not_lt_zero m)
  | succ n ih =>
    intro i m hm hf hk
    cases m with
    | zero =>
      have h0 : set_ok i = false := by simpa using hf
      simp only [fade_worker, h0, Bool.false_eq_true, if_false]
      simp [show List.range 1 = [0] from rfl, fade_call_volume]
    | succ m' =>
      have h0 : set_ok i = true := by simpa using hk 0 (Nat.succ_pos m')
      have hf' : set_ok (i + 1 + m') = false := by
        have hadd : i + (m' + 1) = i + 1 + m' := by omega
        rwa [hadd] at hf
      have hk' : ∀ k, k < m' → set_ok (i + 1 + k) = true := by
        intro k hkk
        have hs := hk (k + 1) (Nat.succ_lt_succ hkk)
        have hadd : i + (k + 1) = i + 1 + k := by omega
        rwa [hadd] at hs
      have hm' : m' < n := by omega
      simp only [fade_worker, h0, if_true]
      rw [ih (i + 1) m' hm' hf' hk']
      conv_rhs => rw [List.range_succ_eq_map]
      rw [List.map_cons, List.map_map]
      congr 1
      apply List.map_congr_left
      intro k _
      simp only [Function.comp_apply]
      congr 1
      omega

lemma fade_call_volume_eq (sv ev : ℚ) (i : ℕ) :
    fade_call_volume sv ev i = clamp01 (sv + (ev - sv) * (i : ℚ) / (steps : ℚ)) := by
  unfold fade_call_volume
  congr 1
  ring

/-- C5: a fade discretizes the transition with step count `steps = 20`,
the `i`-th `set_app_volume` call (for `i = 0, …, steps`, i.e. `steps + 1`
calls in all) carrying `start + (end - start) * i / steps` clamped to
`[0, 1]`; when every call succeeds all `steps + 1` values are issued in
order (first conjunct), and when the call at index `j` is the first to
fail the fade stops silently right there — exactly the values for
`i = 0, …, j` are issued, with no retry and no rollback (second
conjunct). -/
theorem fade_step_formula :
    ∀ (set_ok : ℕ → Bool) (sv ev : ℚ),
      ((∀ i, i ≤ steps → set_ok i = true) →
        fade_app_volume set_ok sv ev =
          (List.range (steps + 1)).map
            (fun (i : ℕ) => clamp01 (sv + (ev - sv) * (i : ℚ) / (steps : ℚ)))) ∧
      (∀ j, j ≤ steps → set_ok j = false →
        (∀ i, i < j → set_ok i = true) →
        fade_app_volume set_ok sv ev =
          (List.range (j + 1)).map
            (fun (i : ℕ) => clamp01 (sv + (ev - sv) * (i : ℚ) / (steps : ℚ)))) := by
  intro set_ok sv ev
  constructor
  · intro hok
    unfold fade_app_volume
    rw [fade_worker_all_ok set_ok sv ev (steps + 1) 0
        (fun k hk => by simpa using hok k (Nat.lt_succ_iff.mp hk))]
    apply List.map_congr_left
    intro k _
    simp [fade_call_volume_eq]
  · intro j hj hjf hjk
    unfold fade_app_volume
    rw [fade_worker_first_fail set_ok sv ev (steps + 1) 0 j (Nat.lt_succ_of_le hj)
        (by simpa using hjf) (fun k hk => by simpa using hjk k hk)]
    apply List.map_congr_left
    intro k _
    simp [fade_call_volume_eq]

/-- Witness for `fade_step_formula`: an always-succeeding fade from `1`
to `0` issues all 21 step values, and one whose fourth call (index 3)
fails issues exactly the values for indices 0 to 3. -/
theorem fade_step_formula_witness :
    fade_app_volume (fun _ => true) 1 0 =
      (List.range (steps + 1)).map
        (fun (i : ℕ) => clamp01 (1 + (0 - 1) * (i : ℚ) / (steps : ℚ))) ∧
    fade_app_volume (fun i => decide (i < 3)) 1 0 =
      (List.range 4).map
        (fun (i : ℕ) => clamp01 (1 + (0 - 1) * (i : ℚ) / (steps : ℚ))) :=
  ⟨(fade_step_formula (fun _ => true) 1 0).1 (fun _ _ => rfl),
   (fade_step_formula (fun i => decide (i < 3)) 1 0).2 3
     (by with_unfolding_all decide) (by rfl) (fun i hi => decide_eq_true hi)⟩

end SLM
